import Mathlib

/-!
Verification of the document-intelligence pipeline of the GENAI backend
(`backend/app`): cache-key derivation and index caching (`services/qa_engine.py`),
chunking policy, RAG answer composition, and the structured-analysis
extraction with JSON coercion (`services/summarizer.py`, `models.py`).

Python values produced by `json.loads` are modelled by `JsonVal`; Python
dictionaries by ordered association lists with first-key-wins lookup and
in-place update, matching `dict` semantics for the operations the source
uses (`in`, `[...] = ...`, `.get`).  Python exceptions are modelled with
`Except PyErr`.  External capabilities (the embedding model, the completion
model, the filesystem, `json.loads`) are supplied by environment records, as
the source treats them as opaque collaborators.
-/

/-- A value as produced by Python `json.loads`. -/
inductive JsonVal where
  | str (s : String)
  | num (n : Int)
  | bool (b : Bool)
  | null
  | arr (elems : List JsonVal)
  | obj (fields : List (String × JsonVal))

/-- Python exceptions relevant to this core.  `valueError` is the
`ValueError("No extracted text found ...")` that the spec names
`NotFoundError`; `validationError` is pydantic `ValidationError`. -/
inductive PyErr where
  | valueError
  | validationError
  | typeError
  | keyError
deriving DecidableEq

/-- A Python `dict` holding JSON data: ordered association list. -/
abbrev JsonDict := List (String × JsonVal)

/-- `data[key]` lookup (first occurrence wins, as keys are unique in `dict`). -/
def dictLookup : JsonDict → String → Option JsonVal
  | [], _ => none
  | (k, v) :: rest, key => if k = key then some v else dictLookup rest key

/-- `data[key] = v`: replace the value if the key is present, else append. -/
def dictSet : JsonDict → String → JsonVal → JsonDict
  | [], key, v => [(key, v)]
  | (k, w) :: rest, key, v =>
      if k = key then (k, v) :: rest else (k, w) :: dictSet rest key v

/-- `if key not in data: data[key] = v` — the backfill idiom of
`validate_and_coerce_analysis`. -/
def dictSetDefault (d : JsonDict) (key : String) (v : JsonVal) : JsonDict :=
  match dictLookup d key with
  | some _ => d
  | none => dictSet d key v

/-! ## `app/models.py` -/

/-- `class RiskItem(BaseModel)`: `title: str`, `why_it_matters: str`,
`where_found: Optional[str] = None`, `mitigations: List[str] = Field(default_factory=list)`. -/
structure RiskItem where
  title : String
  why_it_matters : String
  where_found : Option String
  mitigations : List String
deriving DecidableEq

/-- `class DecisionAssist(BaseModel)`: `pros` and `cons` default to `[]`;
`overall_take: str` has NO default in the source. -/
structure DecisionAssist where
  pros : List String
  cons : List String
  overall_take : String
deriving DecidableEq

/-- `class AnalysisReport(BaseModel)`: every list/dict field defaults to empty;
`decision_assist: DecisionAssist = Field(default_factory=DecisionAssist)`. -/
structure AnalysisReport where
  summary : List String
  key_terms : List String
  obligations : List (String × List String)
  costs_and_payments : List String
  risks : List RiskItem
  red_flags : List String
  questions_to_ask : List String
  negotiation_suggestions : List String
  decision_assist : DecisionAssist
deriving DecidableEq

/-- pydantic construction `DecisionAssist(**kwargs)` with each keyword
optional.  `pros` and `cons` fall back to their `default_factory=list`;
`overall_take` has no default in `models.py`, so omitting it raises
`ValidationError`. -/
def DecisionAssist.construct (prosArg consArg : Option (List String))
    (overallArg : Option String) : Except PyErr DecisionAssist :=
  match overallArg with
  | none => .error .validationError
  | some o => .ok { pros := prosArg.getD [], cons := consArg.getD [], overall_take := o }

/-- pydantic construction `AnalysisReport()` with no arguments: every field
takes its default; the `decision_assist` field runs its
`default_factory=DecisionAssist`, i.e. evaluates `DecisionAssist()`. -/
def analysisReportConstructDefault : Except PyErr AnalysisReport :=
  match DecisionAssist.construct none none none with
  | .error e => .error e
  | .ok da =>
      .ok { summary := [], key_terms := [], obligations := [], costs_and_payments := [],
            risks := [], red_flags := [], questions_to_ask := [],
            negotiation_suggestions := [], decision_assist := da }

/-! ## `app/services/summarizer.py` -/

/-- Python `\s` whitespace class (re module, ASCII range used here). -/
def isPySpace (c : Char) : Bool :=
  c = ' ' || c = '\t' || c = '\n' || c = '\x0d' || c = '\x0b' || c = '\x0c'

/-- `re.sub(marker + r'\s*', '', cs)` for a literal `marker`: delete every
occurrence of the marker together with the whitespace run following it,
scanning left to right without overlap.  The fuel argument (instantiated
with the length of the input) only drives the recursion; every step
consumes at least one character, so the fuel never runs out. -/
def subMarkerFuel (marker : List Char) : Nat → List Char → List Char
  | 0, cs => cs
  | _ + 1, [] => []
  | fuel + 1, c :: rest =>
      if marker.isPrefixOf (c :: rest) then
        subMarkerFuel marker fuel (((c :: rest).drop marker.length).dropWhile isPySpace)
      else
        c :: subMarkerFuel marker fuel rest

/-- `str.strip()`: remove leading and trailing whitespace. -/
def pyStripChars (cs : List Char) : List Char :=
  ((cs.dropWhile isPySpace).reverse.dropWhile isPySpace).reverse

/-- Index of the last occurrence of `c` in `cs`, if any. -/
def lastIdxOfChar (c : Char) (cs : List Char) : Option Nat :=
  match cs.reverse.findIdx? (fun x => x = c) with
  | some k => some (cs.length - 1 - k)
  | none => none

/-- `clean_json_response`: strip fenced code-block markers, `strip()`, then
`re.search(r'\x7b.*\x7d', text, re.DOTALL)` — the leftmost opening brace
that still has a closing brace after it, greedily through the last closing
brace; if no such span exists, return the cleaned text unchanged. -/
def clean_json_response (s : String) : String :=
  let s1 := subMarkerFuel "```json".data s.data.length s.data
  let s2 := subMarkerFuel "```".data s1.length s1
  let cs := pyStripChars s2
  match lastIdxOfChar '\x7d' cs with
  | none => String.mk cs
  | some j =>
      match (cs.take j).findIdx? (fun x => x = '\x7b') with
      | none => String.mk cs
      | some i => String.mk ((cs.drop i).take (j - i + 1))

/-- The `"pros": [], "cons": [], "overall_take": ""` dict used to backfill a
missing `decision_assist` field. -/
def emptyDecisionDict : JsonVal :=
  .obj [("pros", .arr []), ("cons", .arr []), ("overall_take", .str "")]

/-- Lines 70–88 of `validate_and_coerce_analysis`: backfill every missing
top-level field with its empty default, in source order. -/
def ensureTopDefaults (d : JsonDict) : JsonDict :=
  let d1 := dictSetDefault d "summary" (.arr [])
  let d2 := dictSetDefault d1 "key_terms" (.arr [])
  let d3 := dictSetDefault d2 "obligations" (.obj [])
  let d4 := dictSetDefault d3 "costs_and_payments" (.arr [])
  let d5 := dictSetDefault d4 "risks" (.arr [])
  let d6 := dictSetDefault d5 "red_flags" (.arr [])
  let d7 := dictSetDefault d6 "questions_to_ask" (.arr [])
  let d8 := dictSetDefault d7 "negotiation_suggestions" (.arr [])
  dictSetDefault d8 "decision_assist" emptyDecisionDict

/-- Backfill of one `risks` element that is a dict: missing `title` becomes
`"Untitled Risk"`, missing `why_it_matters` becomes `""`, missing
`mitigations` becomes `[]`. -/
def riskBackfill (kvs : JsonDict) : JsonDict :=
  let k1 := dictSetDefault kvs "title" (.str "Untitled Risk")
  let k2 := dictSetDefault k1 "why_it_matters" (.str "")
  dictSetDefault k2 "mitigations" (.arr [])

/-- The `for risk in data.get("risks", []):` loop body: dict elements are
backfilled and appended to `validated_risks`; any other element is skipped. -/
def validateRisksLoop : List JsonVal → List JsonVal
  | [] => []
  | .obj kvs :: rest => .obj (riskBackfill kvs) :: validateRisksLoop rest
  | _ :: rest => validateRisksLoop rest

/-- Python iteration `for risk in v` over the value stored under `risks`:
a list yields its elements, a string yields its one-character substrings, a
dict yields its keys; numbers, booleans and `None` are not iterable
(`TypeError`). -/
def pyIterElems : JsonVal → Except PyErr (List JsonVal)
  | .arr xs => .ok xs
  | .str s => .ok (s.data.map fun c => .str (String.mk [c]))
  | .obj kvs => .ok (kvs.map fun kv => .str kv.1)
  | _ => .error .typeError

/-- Lines 104–110: when `data["decision_assist"]` is a dict, backfill its
missing `pros`, `cons` and `overall_take`; any other value is left alone. -/
def coerceDecisionAssist : JsonVal → JsonVal
  | .obj kvs =>
      let k1 := dictSetDefault kvs "pros" (.arr [])
      let k2 := dictSetDefault k1 "cons" (.arr [])
      .obj (dictSetDefault k2 "overall_take" (.str ""))
  | v => v

/-- The coercion phase of `validate_and_coerce_analysis` (lines 70–110):
top-level backfill, then the `risks` validation loop, then the
`decision_assist` sub-field backfill.  A non-iterable `risks` value makes
the loop header raise `TypeError` (uncaught there: the local handler only
catches `ValidationError`). -/
def coerceAnalysisData (d : JsonDict) : Except PyErr JsonDict :=
  let d1 := ensureTopDefaults d
  match pyIterElems ((dictLookup d1 "risks").getD (.arr [])) with
  | .error e => .error e
  | .ok elems =>
      let d2 := dictSet d1 "risks" (.arr (validateRisksLoop elems))
      match dictLookup d2 "decision_assist" with
      | none => .error .keyError
      | some v => .ok (dictSet d2 "decision_assist" (coerceDecisionAssist v))

/-- pydantic validation of a JSON value as `str`. -/
def asStr : JsonVal → Option String
  | .str s => some s
  | _ => none

/-- pydantic validation of a JSON value as `List[str]`. -/
def asStrList : JsonVal → Option (List String)
  | .arr xs => xs.mapM asStr
  | _ => none

/-- pydantic validation of a field typed `List[str]` with
`default_factory=list`: missing means empty. -/
def fieldStrList (d : JsonDict) (key : String) : Option (List String) :=
  match dictLookup d key with
  | none => some []
  | some v => asStrList v

/-- pydantic validation of a JSON value as `Dict[str, List[str]]`. -/
def asObligations : JsonVal → Option (List (String × List String))
  | .obj kvs => kvs.mapM fun kv => (asStrList kv.2).map fun l => (kv.1, l)
  | _ => none

/-- pydantic validation of a JSON value as a `RiskItem`: `title` and
`why_it_matters` are required strings, `where_found` is optional (absent or
`null` become `None`), `mitigations` defaults to `[]`. -/
def asRiskItem : JsonVal → Option RiskItem
  | .obj kvs => do
      let title ← (dictLookup kvs "title").bind asStr
      let why ← (dictLookup kvs "why_it_matters").bind asStr
      let wf ← match dictLookup kvs "where_found" with
        | none => some none
        | some .null => some none
        | some v => (asStr v).map some
      let mit ← match dictLookup kvs "mitigations" with
        | none => some []
        | some v => asStrList v
      some { title := title, why_it_matters := why, where_found := wf, mitigations := mit }
  | _ => none

/-- pydantic validation of a JSON value as a `DecisionAssist`:
`overall_take` is a required string, `pros` and `cons` default to `[]`. -/
def asDecisionAssist : JsonVal → Option DecisionAssist
  | .obj kvs => do
      let overall ← (dictLookup kvs "overall_take").bind asStr
      let pros ← match dictLookup kvs "pros" with
        | none => some []
        | some v => asStrList v
      let cons ← match dictLookup kvs "cons" with
        | none => some []
        | some v => asStrList v
      some { pros := pros, cons := cons, overall_take := overall }
  | _ => none

/-- pydantic construction `AnalysisReport(**data)` from a JSON dict: each
missing field takes its default; the `decision_assist` default factory is
`DecisionAssist()`, which fails since `overall_take` has no default. -/
def buildAnalysisReport (d : JsonDict) : Option AnalysisReport := do
  let summary ← fieldStrList d "summary"
  let key_terms ← fieldStrList d "key_terms"
  let obligations ← match dictLookup d "obligations" with
    | none => some []
    | some v => asObligations v
  let costs ← fieldStrList d "costs_and_payments"
  let risks ← match dictLookup d "risks" with
    | none => some []
    | some (.arr xs) => xs.mapM asRiskItem
    | some _ => none
  let red_flags ← fieldStrList d "red_flags"
  let questions ← fieldStrList d "questions_to_ask"
  let negotiation ← fieldStrList d "negotiation_suggestions"
  let da ← match dictLookup d "decision_assist" with
    | none => none
    | some v => asDecisionAssist v
  some { summary := summary, key_terms := key_terms, obligations := obligations,
         costs_and_payments := costs, risks := risks, red_flags := red_flags,
         questions_to_ask := questions, negotiation_suggestions := negotiation,
         decision_assist := da }

/-- `validate_and_coerce_analysis(data)`: coerce, then build the typed
report.  A `ValidationError` from the typed construction is caught and
answered with `AnalysisReport()` — which itself raises (see
`analysisReportConstructDefault`); a `TypeError`/`KeyError` from the
coercion phase is not caught here at all. -/
def validate_and_coerce_analysis (d : JsonDict) : Except PyErr AnalysisReport :=
  match coerceAnalysisData d with
  | .error e => .error e
  | .ok d2 =>
      match buildAnalysisReport d2 with
      | some r => .ok r
      | none => analysisReportConstructDefault

/-- External collaborators of `_summarize_document_sync`: the text store,
the completion capability (`ChatVertexAI(...).invoke`, whose construction
and call may raise, modelled as one fallible call), and Python
`json.loads`, whose outcome on a given string (value or
`json.JSONDecodeError`) the environment supplies, the parser itself being
stdlib code outside this repository. -/
structure SummEnv where
  load_extracted_text : String → Option String
  llmInvoke : String → Except String String
  jsonLoads : String → Except Unit JsonVal

/-- `get_summarization_prompt(text)`: the structured-analysis prompt, with
the document text truncated to its first 10000 characters. -/
def get_summarization_prompt (text : String) : String :=
  "You are a legal clarity assistant specializing in analyzing legal documents and contracts. \nAnalyze the following document and provide a comprehensive structured analysis.\n\nDocument Text:\n"
  ++ (String.mk (text.data.take 10000))
  ++ "  # Limit to first 10k chars to avoid token limits\n\nPlease analyze this document and return a JSON object with the following structure:\n\x7b\n    \"summary\": [\"point 1\", \"point 2\", ...],  // A list of summary points (strings)\n    \"key_terms\": [\"term1\", \"term2\", ...],  // Important legal terms found in the document\n    \"obligations\": \x7b  // Key obligations organized by party or topic\n        \"Party A\": [\"obligation 1\", \"obligation 2\"],\n        \"Party B\": [\"obligation 1\", \"obligation 2\"]\n    \x7d,\n    \"costs_and_payments\": [\"cost/payment point 1\", ...],  // Financial obligations and costs\n    \"risks\": [  // Risk assessment\n        \x7b\n            \"title\": \"Risk title\",\n            \"why_it_matters\": \"Explanation of why this risk matters\",\n            \"where_found\": \"Section or clause reference (optional)\",\n            \"mitigations\": [\"mitigation 1\", \"mitigation 2\"]\n        \x7d\n    ],\n    \"red_flags\": [\"flag 1\", \"flag 2\", ...],  // Critical issues or warning signs\n    \"questions_to_ask\": [\"question 1\", \"question 2\", ...],  // Questions to clarify with the other party\n    \"negotiation_suggestions\": [\"suggestion 1\", ...],  // Recommendations for negotiation\n    \"decision_assist\": \x7b\n        \"pros\": [\"pro 1\", \"pro 2\", ...],\n        \"cons\": [\"con 1\", \"con 2\", ...],\n        \"overall_take\": \"Overall assessment and recommendation\"\n    \x7d\n\x7d\n\nIMPORTANT: Return ONLY valid JSON. Do not include any markdown formatting, code blocks, or additional text.\nThe JSON must be valid and parseable."

/-- `_summarize_document_sync(doc_id)` — the body of
`AnalysisExtractor.analyze`.  Notes on the exception flow, which the
`Except` results make explicit:
* `if not text:` treats both a missing text-store entry and an empty string
  as "no extracted text" and raises `ValueError`;
* any failure of the completion call is caught by `except Exception` and
  answered with `return AnalysisReport()` — an expression that itself
  raises `ValidationError` (see `analysisReportConstructDefault`), and an
  exception raised inside an `except` handler leaves the whole `try`;
* a `json.JSONDecodeError` is caught and answered the same way;
* a non-dict parse result, or a `TypeError`/`KeyError`/`ValidationError`
  leaving `validate_and_coerce_analysis`, lands in `except Exception`,
  which again evaluates `AnalysisReport()`. -/
def summarize_document_sync (env : SummEnv) (doc_id : String) : Except PyErr AnalysisReport :=
  match env.load_extracted_text doc_id with
  | none => .error .valueError
  | some text =>
      if text = "" then .error .valueError
      else
        match env.llmInvoke (get_summarization_prompt text) with
        | .error _ => analysisReportConstructDefault
        | .ok response_text =>
            match env.jsonLoads (clean_json_response response_text) with
            | .error _ => analysisReportConstructDefault
            | .ok (.obj data) =>
                match validate_and_coerce_analysis data with
                | .ok report => .ok report
                | .error _ => analysisReportConstructDefault
            | .ok _ => analysisReportConstructDefault

/-! ## `app/services/qa_engine.py` -/

/-- Python string comparison: lexicographic over the code points, as a
computable Boolean `≤` on the underlying character lists. -/
def charListLe : List Char → List Char → Bool
  | [], _ => true
  | _ :: _, [] => false
  | a :: as, b :: bs => if a < b then true else if b < a then false else charListLe as bs

/-- Python `s1 <= s2` on strings. -/
def pyStrLe (a b : String) : Bool := charListLe a.data b.data

/-- `store_name = "_".join(sorted(doc_ids))` (line 34): the cache key of the
persisted index.  Python `sorted` returns the ascending permutation of the
list under lexicographic string comparison; over this total order the sorted
permutation is unique, and `List.insertionSort` computes it. -/
def keyFor (doc_ids : List String) : String :=
  String.intercalate "_" (doc_ids.insertionSort fun a b => pyStrLe a b = true)

/-- Modelled from the spec: `ChunkSplitter.split` (§4.1).  The source
delegates chunking to langchain `RecursiveCharacterTextSplitter(chunk_size=1000,
chunk_overlap=200, length_function=len)` (lines 63–68), whose code is not
part of this repository.  Per the contract: windows of at most `maxLen`
characters, consecutive windows sharing `overlap` characters, no trailing
content dropped, empty input giving the empty sequence; `overlap ≥ maxLen`
is undefined input, handled here by clamping the step to at least one so the
recursion cannot loop.  The fuel argument (instantiated with the input
length) only drives the recursion and never runs out, since every step
consumes at least one character. -/
def chunkSplitAux (maxLen step : Nat) : Nat → List Char → List (List Char)
  | 0, cs => [cs]
  | fuel + 1, cs =>
      if cs.length ≤ maxLen then [cs]
      else cs.take maxLen :: chunkSplitAux maxLen step fuel (cs.drop step)

/-- Modelled from the spec: `ChunkSplitter.split(text, maxLen, overlap)`;
see `chunkSplitAux`. -/
def chunkSplit (cs : List Char) (maxLen overlap : Nat) : List (List Char) :=
  if cs = [] then [] else chunkSplitAux maxLen (max 1 (maxLen - overlap)) cs.length cs

/-- The in-memory FAISS store: the chunk texts it was built from (what
`FAISS.from_texts` keeps alongside the vectors). -/
structure FaissStore where
  texts : List String
deriving DecidableEq

/-- External collaborators of the QA engine: the module-level `embeddings`
handle (None when `HuggingFaceEmbeddings(...)` raised at import, line 21–25),
the two on-disk artifacts `<name>.faiss` / `<name>.pkl`, `FAISS.load_local`,
the text store, `FAISS.from_texts` (the embedding capability),
`save_local`, `similarity_search`, and the completion capability. -/
structure QaEnv where
  embeddingsLoaded : Bool
  faissFileExists : String → Bool
  pklFileExists : String → Bool
  loadLocal : String → Except String FaissStore
  load_extracted_text : String → Option String
  fromTexts : List String → Except String FaissStore
  saveLocal : String → FaissStore → Except String Unit
  similaritySearch : FaissStore → String → Nat → Except String (List String)
  llmInvoke : String → Except String String

/-- Lines 49–86 of `get_or_create_vector_store`: the full rebuild.  Ids
whose text is missing or empty contribute nothing (`if text:`); no text at
all, or no chunks, yields `None`; embedding or save failures are caught and
yield `None`. -/
def buildFreshStore (env : QaEnv) (doc_ids : List String) (store_name : String) : Option FaissStore :=
  let all_texts := doc_ids.filterMap fun doc_id =>
    match env.load_extracted_text doc_id with
    | some text => if text = "" then none else some text
    | none => none
  if all_texts = [] then none
  else
    let combined_text := String.intercalate "\n\n---DOCUMENT SEPARATOR---\n\n" all_texts
    let chunks := (chunkSplit combined_text.data 1000 200).map String.mk
    if chunks = [] then none
    else
      match env.fromTexts chunks with
      | .error _ => none
      | .ok vector_store =>
          match env.saveLocal store_name vector_store with
          | .error _ => none
          | .ok _ => some vector_store

/-- `get_or_create_vector_store(doc_ids)`: `None` when the embeddings
handle is absent; otherwise try the persisted index — only when both
artifacts exist — and fall back to a full rebuild when an artifact is
missing or `FAISS.load_local` raises. -/
def get_or_create_vector_store (env : QaEnv) (doc_ids : List String) : Option FaissStore :=
  if env.embeddingsLoaded = false then none
  else
    let store_name := keyFor doc_ids
    if env.faissFileExists store_name && env.pklFileExists store_name then
      match env.loadLocal store_name with
      | .ok vector_store => some vector_store
      | .error _ => buildFreshStore env doc_ids store_name
    else buildFreshStore env doc_ids store_name

/-- `get_qa_prompt(query, context)`. -/
def get_qa_prompt (query context : String) : String :=
  "You are a helpful legal document assistant. Answer the user\x27s question based on the following document context.\n\nDocument Context:\n"
  ++ context
  ++ "\n\nUser Question: " ++ query
  ++ "\n\nProvide a clear, concise, and accurate answer based solely on the document context provided. If the context doesn\x27t contain enough information to answer the question, say so. Do not make up information.\n\nAnswer:"

/-- `_chat_with_documents_sync(doc_ids, query)` — the body of
`AnswerComposer.answer`.  Empty `doc_ids` short-circuits to the fixed
guidance string; a `None` store yields the fixed indexing-failure string;
any exception from the capabilities inside the `try` is caught and turned
into the fixed message embedding `str(e)`. -/
def chat_with_documents_sync (env : QaEnv) (doc_ids : List String) (query : String) : String :=
  if doc_ids = [] then "No documents available to answer your question."
  else
    match get_or_create_vector_store env doc_ids with
    | none => "Error: Could not create vector store from documents. Please ensure documents are properly processed."
    | some vector_store =>
        match env.similaritySearch vector_store query 3 with
        | .error e => "Sorry, I encountered an error while processing your question: " ++ e
        | .ok docs =>
            let context := String.intercalate "\n\n" docs
            match env.llmInvoke (get_qa_prompt query context) with
            | .error e => "Sorry, I encountered an error while processing your question: " ++ e
            | .ok content => content

/-! ## Order facts for the cache-key comparator -/

theorem charListLe_total (as bs : List Char) :
    charListLe as bs = true ∨ charListLe bs as = true := by
  induction as generalizing bs with
  | nil => left; rfl
  | cons a as ih =>
    cases bs with
    | nil => right; rfl
    | cons b bs =>
      rcases lt_trichotomy a b with h | h | h
      · left; simp [charListLe, h]
      · subst h
        simpa [charListLe, lt_irrefl] using ih bs
      · right; simp [charListLe, h]

theorem charListLe_trans (as bs cs : List Char) (h1 : charListLe as bs = true)
    (h2 : charListLe bs cs = true) : charListLe as cs = true := by
  induction as generalizing bs cs with
  | nil => rfl
  | cons a as ih =>
    cases bs with
    | nil => simp [charListLe] at h1
    | cons b bs =>
      cases cs with
      | nil => simp [charListLe] at h2
      | cons c cs =>
        rcases lt_trichotomy a b with hab | hab | hab
        · rcases lt_trichotomy b c with hbc | hbc | hbc
          · simp [charListLe, lt_trans hab hbc]
          · subst hbc; simp [charListLe, hab]
          · simp [charListLe, hbc, lt_asymm hbc] at h2
        · subst hab
          rcases lt_trichotomy a c with hac | hac | hac
          · simp [charListLe, hac]
          · subst hac
            simp only [charListLe, lt_irrefl, if_false] at h1 h2 ⊢
            exact ih bs cs h1 h2
          · simp [charListLe, hac, lt_asymm hac] at h2
        · simp [charListLe, hab, lt_asymm hab] at h1

theorem charListLe_antisymm (as bs : List Char) (h1 : charListLe as bs = true)
    (h2 : charListLe bs as = true) : as = bs := by
  induction as generalizing bs with
  | nil =>
    cases bs with
    | nil => rfl
    | cons b bs => simp [charListLe] at h2
  | cons a as ih =>
    cases bs with
    | nil => simp [charListLe] at h1
    | cons b bs =>
      rcases lt_trichotomy a b with hab | hab | hab
      · simp [charListLe, hab, lt_asymm hab] at h2
      · subst hab
        simp only [charListLe, lt_irrefl, if_false] at h1 h2
        rw [ih bs h1 h2]
      · simp [charListLe, hab, lt_asymm hab] at h1

theorem pyStrLe_total (a b : String) : pyStrLe a b = true ∨ pyStrLe b a = true :=
  charListLe_total a.data b.data

theorem pyStrLe_trans (a b c : String) (h1 : pyStrLe a b = true)
    (h2 : pyStrLe b c = true) : pyStrLe a c = true :=
  charListLe_trans a.data b.data c.data h1 h2

theorem pyStrLe_antisymm (a b : String) (h1 : pyStrLe a b = true)
    (h2 : pyStrLe b a = true) : a = b := by
  have h := charListLe_antisymm a.data b.data h1 h2
  cases a; cases b
  exact congrArg String.mk h

instance : IsTotal String (fun a b => pyStrLe a b = true) := ⟨pyStrLe_total⟩

instance : IsTrans String (fun a b => pyStrLe a b = true) := ⟨pyStrLe_trans⟩

instance : IsAntisymm String (fun a b => pyStrLe a b = true) := ⟨pyStrLe_antisymm⟩

/-! ## C1 -/

/-- C1 counterexample: `["a", "a"]` and `["a"]` are equal as sets of
document identifiers, yet `keyFor` maps them to different keys
(`"a_a"` vs `"a"`): the key depends on duplicates in the input, so the
claimed set-level if-and-only-if fails. -/
theorem keyFor_not_set_determined :
    (∀ x ∈ (["a", "a"] : List String), x ∈ (["a"] : List String)) ∧
    (∀ x ∈ (["a"] : List String), x ∈ (["a", "a"] : List String)) ∧
    keyFor ["a", "a"] ≠ keyFor ["a"] :=
  ⟨by decide, by decide, by decide⟩

/-- C1 (amended): the cache key is independent of the ORDER of the document
identifiers — `keyFor` is invariant under permutation of its input, because
it sorts before joining.  It is NOT invariant under duplication, and
distinct sets can collide when an identifier contains the `"_"` separator
(e.g. `keyFor ["a_b"] = keyFor ["a", "b"]`), so set-equality does not
characterise key-equality in either direction. -/
theorem keyFor_perm_invariant (l1 l2 : List String) (h : l1.Perm l2) :
    keyFor l1 = keyFor l2 := by
  unfold keyFor
  congr 1
  exact List.eq_of_perm_of_sorted
    ((List.perm_insertionSort _ l1).trans (h.trans (List.perm_insertionSort _ l2).symm))
    (List.sorted_insertionSort _ l1)
    (List.sorted_insertionSort _ l2)

/-- Witness for C1 (amended): a concrete permutation, `["b", "a"]` against
`["a", "b"]`, on which the theorem yields equal keys. -/
theorem keyFor_perm_invariant_witness :
    (["b", "a"] : List String).Perm ["a", "b"] ∧ keyFor ["b", "a"] = keyFor ["a", "b"] :=
  ⟨by decide, keyFor_perm_invariant ["b", "a"] ["a", "b"] (by decide)⟩

/-! ## C2 -/

/-- C2: the all-defaults `AnalysisReport()` is NOT constructible.
`DecisionAssist.overall_take` has no default in `models.py`, so the
`default_factory=DecisionAssist` of the `decision_assist` field evaluates
`DecisionAssist()` and raises `ValidationError`, which makes the whole
no-argument construction fail instead of yielding the all-empty report. -/
theorem analysisReport_default_construction_fails :
    analysisReportConstructDefault = .error .validationError ∧
    DecisionAssist.construct none none none = .error .validationError :=
  ⟨rfl, rfl⟩

/-! ## C3 -/

/-- Concrete run for C3: the text store holds text for the document, the
completion capability returns prose from which no JSON object can be
parsed. -/
def envC3 : SummEnv :=
  { load_extracted_text := fun _ => some "This agreement is made between the parties."
    llmInvoke := fun _ => .ok "I am sorry, I cannot produce structured output."
    jsonLoads := fun _ => .error () }

/-- C3: on non-JSON garbage `analyze` does NOT return the all-defaults
report — it raises.  The `except json.JSONDecodeError` handler executes
`return AnalysisReport()`, whose construction itself raises
`ValidationError` (see C2), and an exception raised inside the handler
escapes `_summarize_document_sync` to the caller. -/
theorem summarize_garbage_raises_validation :
    envC3.load_extracted_text "doc-1" = some "This agreement is made between the parties." ∧
    envC3.jsonLoads (clean_json_response "I am sorry, I cannot produce structured output.") = .error () ∧
    summarize_document_sync envC3 "doc-1" = .error .validationError :=
  ⟨rfl, rfl, rfl⟩

/-! ## C4 -/

/-- Concrete run for C4: text present, completion answer unparseable. -/
def envC4 : SummEnv :=
  { load_extracted_text := fun _ => some "Lease agreement: tenant shall pay rent monthly."
    llmInvoke := fun _ => .ok "Here is my analysis in plain prose, without any JSON."
    jsonLoads := fun _ => .error () }

/-- C4: the not-found error is NOT the only error `analyze` lets escape,
and `analyze` can raise even though the text store holds extracted text for
the document: with the text present and the model response unparseable, the
recovery path evaluates `AnalysisReport()` and the resulting
`ValidationError` (an error distinct from the not-found `ValueError`)
propagates to the caller. -/
theorem analyze_escapes_validation_error :
    envC4.load_extracted_text "doc-7" = some "Lease agreement: tenant shall pay rent monthly." ∧
    summarize_document_sync envC4 "doc-7" = .error .validationError ∧
    PyErr.validationError ≠ PyErr.valueError :=
  ⟨rfl, rfl, by decide⟩

/-! ## C7 -/

/-- C7: with an empty list of document identifiers, `answer` returns the
fixed no-documents guidance string for EVERY environment and query — the
result does not depend on any capability of the environment, i.e. no
embedding, completion, index build or load is consulted. -/
theorem answer_empty_doc_ids (env : QaEnv) (query : String) :
    chat_with_documents_sync env [] query = "No documents available to answer your question." :=
  rfl

/-! ## C10 -/

/-- C10: when the module-level embeddings handle failed to load
(`embeddings is None`), `get_or_create_vector_store` returns `None`
immediately for every document-id list — the environment is otherwise
unconstrained, so this holds in particular when both persisted artifacts
exist and `FAISS.load_local` would succeed — and consequently
`_chat_with_documents_sync` on any non-empty `doc_ids` returns the fixed
indexing-failure string. -/
theorem embeddings_absent_forces_failure (env : QaEnv) (doc_ids : List String)
    (query : String) (h : env.embeddingsLoaded = false) :
    get_or_create_vector_store env doc_ids = none ∧
    (doc_ids ≠ [] → chat_with_documents_sync env doc_ids query =
      "Error: Could not create vector store from documents. Please ensure documents are properly processed.") := by
  have hg : get_or_create_vector_store env doc_ids = none := by
    unfold get_or_create_vector_store
    simp [h]
  refine ⟨hg, fun hne => ?_⟩
  unfold chat_with_documents_sync
  rw [if_neg hne, hg]

/-- For the C10 witness: embeddings absent while a complete, loadable
persisted index exists for every key and every document has text. -/
def envC10 : QaEnv :=
  { embeddingsLoaded := false
    faissFileExists := fun _ => true
    pklFileExists := fun _ => true
    loadLocal := fun _ => .ok { texts := ["cached chunk"] }
    load_extracted_text := fun _ => some "some extracted text"
    fromTexts := fun chunks => .ok { texts := chunks }
    saveLocal := fun _ _ => .ok ()
    similaritySearch := fun _ _ _ => .ok ["cached chunk"]
    llmInvoke := fun _ => .ok "an answer" }

/-- Witness for C10: on `envC10`, whose on-disk cache is complete and
loadable, the store is still `None` and the chat answer is the fixed
indexing-failure string. -/
theorem embeddings_absent_forces_failure_witness :
    get_or_create_vector_store envC10 ["a", "b"] = none ∧
    chat_with_documents_sync envC10 ["a", "b"] "What is the notice period?" =
      "Error: Could not create vector store from documents. Please ensure documents are properly processed." := by
  obtain ⟨h1, h2⟩ := embeddings_absent_forces_failure envC10 ["a", "b"]
    "What is the notice period?" rfl
  exact ⟨h1, h2 (by decide)⟩

/-! ## C6 -/

/-- C6: the persisted index is consulted only when BOTH on-disk artifacts
(`<key>.faiss` and `<key>.pkl`) exist: in that case a successful
`FAISS.load_local` is returned as the store; if either artifact is missing,
or both exist but the load raises, `get_or_create_vector_store` treats the
cache as absent and proceeds to the full rebuild (`buildFreshStore`, lines
49–86) instead of raising. -/
theorem get_or_create_cache_fallback (env : QaEnv) (doc_ids : List String)
    (he : env.embeddingsLoaded = true) :
    (∀ vs, env.faissFileExists (keyFor doc_ids) = true →
       env.pklFileExists (keyFor doc_ids) = true →
       env.loadLocal (keyFor doc_ids) = .ok vs →
       get_or_create_vector_store env doc_ids = some vs) ∧
    ((env.faissFileExists (keyFor doc_ids) && env.pklFileExists (keyFor doc_ids)) = false →
       get_or_create_vector_store env doc_ids = buildFreshStore env doc_ids (keyFor doc_ids)) ∧
    (∀ e, env.faissFileExists (keyFor doc_ids) = true →
       env.pklFileExists (keyFor doc_ids) = true →
       env.loadLocal (keyFor doc_ids) = .error e →
       get_or_create_vector_store env doc_ids = buildFreshStore env doc_ids (keyFor doc_ids)) := by
  refine ⟨fun vs h1 h2 h3 => ?_, fun hmiss => ?_, fun e h1 h2 h3 => ?_⟩
  · unfold get_or_create_vector_store
    simp [he, h1, h2, h3]
  · unfold get_or_create_vector_store
    simp [he, hmiss]
  · unfold get_or_create_vector_store
    simp [he, h1, h2, h3]

/-- For the C6 witness: a complete, loadable persisted index. -/
def envC6 : QaEnv :=
  { embeddingsLoaded := true
    faissFileExists := fun _ => true
    pklFileExists := fun _ => true
    loadLocal := fun _ => .ok { texts := ["persisted chunk"] }
    load_extracted_text := fun _ => some "some extracted text"
    fromTexts := fun chunks => .ok { texts := chunks }
    saveLocal := fun _ _ => .ok ()
    similaritySearch := fun _ _ _ => .ok ["persisted chunk"]
    llmInvoke := fun _ => .ok "an answer" }

/-- Witness for C6: with both artifacts present and a loadable store, the
persisted index is returned. -/
theorem get_or_create_cache_fallback_witness :
    get_or_create_vector_store envC6 ["doc1"] = some { texts := ["persisted chunk"] } :=
  (get_or_create_cache_fallback envC6 ["doc1"] rfl).1 { texts := ["persisted chunk"] } rfl rfl rfl

/-! ## C8 -/

/-- C8: on non-empty `doc_ids`, `answer` is total — the model returns a
string in every case — and in each failure mode yields the documented fixed
string: the indexing-failure string when no store could be obtained, and
the fixed error string with `str(e)` appended when the similarity search or
the completion call raises `e`. -/
theorem answer_never_raises (env : QaEnv) (doc_ids : List String) (query : String)
    (hne : doc_ids ≠ []) :
    (get_or_create_vector_store env doc_ids = none →
       chat_with_documents_sync env doc_ids query =
         "Error: Could not create vector store from documents. Please ensure documents are properly processed.") ∧
    (∀ vs e, get_or_create_vector_store env doc_ids = some vs →
       env.similaritySearch vs query 3 = .error e →
       chat_with_documents_sync env doc_ids query =
         "Sorry, I encountered an error while processing your question: " ++ e) ∧
    (∀ vs docs e, get_or_create_vector_store env doc_ids = some vs →
       env.similaritySearch vs query 3 = .ok docs →
       env.llmInvoke (get_qa_prompt query (String.intercalate "\n\n" docs)) = .error e →
       chat_with_documents_sync env doc_ids query =
         "Sorry, I encountered an error while processing your question: " ++ e) := by
  refine ⟨fun h1 => ?_, fun vs e h1 h2 => ?_, fun vs docs e h1 h2 h3 => ?_⟩
  · unfold chat_with_documents_sync
    rw [if_neg hne, h1]
  · unfold chat_with_documents_sync
    rw [if_neg hne, h1]
    dsimp only
    rw [h2]
  · unfold chat_with_documents_sync
    rw [if_neg hne, h1]
    dsimp only
    rw [h2]
    dsimp only
    rw [h3]

/-- For the C8 witness, failure mode one: no store obtainable. -/
def envC8 : QaEnv :=
  { embeddingsLoaded := false
    faissFileExists := fun _ => false
    pklFileExists := fun _ => false
    loadLocal := fun _ => .error "load failed"
    load_extracted_text := fun _ => none
    fromTexts := fun _ => .error "embedding failed"
    saveLocal := fun _ _ => .error "save failed"
    similaritySearch := fun _ _ _ => .error "search failed"
    llmInvoke := fun _ => .error "model unavailable" }

/-- For the C8 witness, failure mode two: a store loads but the similarity
search raises. -/
def envC8b : QaEnv :=
  { embeddingsLoaded := true
    faissFileExists := fun _ => true
    pklFileExists := fun _ => true
    loadLocal := fun _ => .ok { texts := ["chunk"] }
    load_extracted_text := fun _ => some "some extracted text"
    fromTexts := fun chunks => .ok { texts := chunks }
    saveLocal := fun _ _ => .ok ()
    similaritySearch := fun _ _ _ => .error "model unavailable"
    llmInvoke := fun _ => .error "model unavailable" }

/-- Witness for C8: concrete non-empty `doc_ids` exercising both fixed
error strings. -/
theorem answer_never_raises_witness :
    chat_with_documents_sync envC8 ["doc1"] "What is the term?" =
      "Error: Could not create vector store from documents. Please ensure documents are properly processed." ∧
    chat_with_documents_sync envC8b ["doc1"] "What is the term?" =
      "Sorry, I encountered an error while processing your question: model unavailable" :=
  ⟨(answer_never_raises envC8 ["doc1"] "What is the term?" (by decide)).1 rfl,
   (answer_never_raises envC8b ["doc1"] "What is the term?" (by decide)).2.1
     { texts := ["chunk"] } "model unavailable" rfl rfl⟩

/-! ## C9 -/

theorem chunkSplitAux_base (maxLen step fuel : Nat) (cs : List Char)
    (h : cs.length ≤ maxLen) : chunkSplitAux maxLen step fuel cs = [cs] := by
  cases fuel with
  | zero => rfl
  | succ n => simp [chunkSplitAux, h]

theorem chunkSplitAux_rec (maxLen step fuel : Nat) (cs : List Char)
    (h : ¬ cs.length ≤ maxLen) :
    chunkSplitAux maxLen step (fuel + 1) cs =
      cs.take maxLen :: chunkSplitAux maxLen step fuel (cs.drop step) := by
  simp [chunkSplitAux, h]

/-- On input of length 2500 with window 1000 and overlap 200 the splitter
produces exactly the three windows starting at offsets 0, 800 and 1600. -/
theorem chunkSplit_len2500 (l : List Char) (hlen : l.length = 2500) :
    chunkSplit l 1000 200 = [l.take 1000, (l.drop 800).take 1000, l.drop 1600] := by
  have hne : l ≠ [] := by intro h; rw [h] at hlen; simp at hlen
  unfold chunkSplit
  rw [if_neg hne, hlen]
  rw [show max 1 (1000 - 200) = 800 by norm_num]
  rw [show (2500 : Nat) = 2499 + 1 from rfl,
      chunkSplitAux_rec _ _ _ _ (by omega)]
  rw [show (2499 : Nat) = 2498 + 1 from rfl,
      chunkSplitAux_rec _ _ _ _ (by simp [hlen])]
  rw [List.drop_drop]
  rw [show (800 + 800 : Nat) = 1600 from rfl]
  rw [chunkSplitAux_base _ _ _ _ (by simp [hlen])]

/-- C9 (spec-modelled splitter): on every text of length 2500,
`split(text, 1000, 200)` yields the ordered windows at offsets 0, 800 and
1600, and every character position of the input is inside at least one
window (each window being the contiguous slice of the input at its offset);
the trailing 900 characters form their own shorter window rather than being
dropped; and splitting the empty text yields the empty sequence. -/
theorem chunk_split_coverage :
    (∀ l : List Char, l.length = 2500 →
       chunkSplit l 1000 200 = [l.take 1000, (l.drop 800).take 1000, l.drop 1600] ∧
       ∀ i, i < l.length →
         ∃ c ∈ chunkSplit l 1000 200, ∃ s, c = (l.drop s).take c.length ∧
           s ≤ i ∧ i < s + c.length) ∧
    (∀ maxLen overlap, chunkSplit [] maxLen overlap = []) := by
  refine ⟨fun l hlen => ?_, fun maxLen overlap => by simp [chunkSplit]⟩
  have hsh := chunkSplit_len2500 l hlen
  refine ⟨hsh, fun i hi => ?_⟩
  rw [hlen] at hi
  by_cases h1 : i < 1000
  · refine ⟨l.take 1000, by rw [hsh]; exact List.mem_cons_self _ _, 0, ?_, Nat.zero_le _, ?_⟩
    · rw [List.drop_zero, List.length_take, hlen, min_eq_left (by norm_num)]
    · rw [List.length_take, hlen, min_eq_left (by norm_num)]; omega
  · by_cases h2 : i < 1800
    · refine ⟨(l.drop 800).take 1000, by rw [hsh]; simp, 800, ?_, by omega, ?_⟩
      · rw [List.length_take, List.length_drop, hlen,
            min_eq_left (by norm_num)]
      · rw [List.length_take, List.length_drop, hlen,
            min_eq_left (by norm_num)]; omega
    · refine ⟨l.drop 1600, by rw [hsh]; simp, 1600, ?_, by omega, ?_⟩
      · rw [List.take_length]
      · rw [List.length_drop, hlen]; omega

/-- Witness for C9: the length-2500 text `replicate 2500 'x'` is split into
the three documented windows. -/
theorem chunk_split_coverage_witness :
    chunkSplit (List.replicate 2500 'x') 1000 200 =
      [(List.replicate 2500 'x').take 1000,
       ((List.replicate 2500 'x').drop 800).take 1000,
       (List.replicate 2500 'x').drop 1600] :=
  (chunk_split_coverage.1 (List.replicate 2500 'x') (by rw [List.length_replicate])).1

/-! ## Dictionary lemmas for the coercion phase -/

theorem dictLookup_set_self (d : JsonDict) (key : String) (v : JsonVal) :
    dictLookup (dictSet d key v) key = some v := by
  induction d with
  | nil => simp [dictSet, dictLookup]
  | cons kv rest ih =>
    obtain ⟨k, w⟩ := kv
    by_cases h : k = key
    · simp [dictSet, dictLookup, h]
    · simp [dictSet, dictLookup, h, ih]

theorem dictLookup_set_ne (d : JsonDict) (key k : String) (v : JsonVal)
    (hne : k ≠ key) : dictLookup (dictSet d key v) k = dictLookup d k := by
  induction d with
  | nil => simp [dictSet, dictLookup, Ne.symm hne]
  | cons kv rest ih =>
    obtain ⟨k0, w⟩ := kv
    by_cases h : k0 = key
    · have h2 : ¬ key = k := fun hk => hne hk.symm
      simp [dictSet, dictLookup, h, h2]
    · by_cases h3 : k0 = k
      · simp [dictSet, dictLookup, h, h3, hne]
      · simp [dictSet, dictLookup, h, h3, ih]

theorem dictLookup_setDefault_some (d : JsonDict) (key k : String) (w v : JsonVal)
    (h : dictLookup d k = some v) :
    dictLookup (dictSetDefault d key w) k = some v := by
  unfold dictSetDefault
  cases hk : dictLookup d key with
  | some u => exact h
  | none =>
    by_cases hne : k = key
    · subst hne; rw [h] at hk; cases hk
    · rw [dictLookup_set_ne d key k w hne]; exact h

theorem dictLookup_setDefault_none_self (d : JsonDict) (key : String) (w : JsonVal)
    (h : dictLookup d key = none) :
    dictLookup (dictSetDefault d key w) key = some w := by
  unfold dictSetDefault
  rw [h]
  exact dictLookup_set_self d key w

theorem dictLookup_setDefault_ne (d : JsonDict) (key k : String) (w : JsonVal)
    (hne : k ≠ key) :
    dictLookup (dictSetDefault d key w) k = dictLookup d k := by
  unfold dictSetDefault
  cases hk : dictLookup d key with
  | some u => rfl
  | none => exact dictLookup_set_ne d key k w hne

theorem dictLookup_setDefault_isSome (d : JsonDict) (key : String) (w : JsonVal) :
    ∃ v, dictLookup (dictSetDefault d key w) key = some v := by
  cases hk : dictLookup d key with
  | some u =>
    refine ⟨u, ?_⟩
    unfold dictSetDefault
    rw [hk]
    exact hk
  | none => exact ⟨w, dictLookup_setDefault_none_self d key w hk⟩

theorem ensureTop_keeps_some (d : JsonDict) (k : String) (v : JsonVal)
    (h : dictLookup d k = some v) :
    dictLookup (ensureTopDefaults d) k = some v := by
  simp only [ensureTopDefaults]
  iterate 9 apply dictLookup_setDefault_some
  exact h

theorem ensureTop_risks_none (d : JsonDict) (h : dictLookup d "risks" = none) :
    dictLookup (ensureTopDefaults d) "risks" = some (.arr []) := by
  simp only [ensureTopDefaults]
  iterate 4 apply dictLookup_setDefault_some
  apply dictLookup_setDefault_none_self
  rw [dictLookup_setDefault_ne _ _ _ _ (by decide),
      dictLookup_setDefault_ne _ _ _ _ (by decide),
      dictLookup_setDefault_ne _ _ _ _ (by decide),
      dictLookup_setDefault_ne _ _ _ _ (by decide)]
  exact h

theorem ensureTop_da_isSome (d : JsonDict) :
    ∃ v, dictLookup (ensureTopDefaults d) "decision_assist" = some v := by
  simp only [ensureTopDefaults]
  exact dictLookup_setDefault_isSome _ _ _

theorem ensureTop_summary_none (d : JsonDict) (h : dictLookup d "summary" = none) :
    dictLookup (ensureTopDefaults d) "summary" = some (.arr []) := by
  simp only [ensureTopDefaults]
  iterate 8 apply dictLookup_setDefault_some
  exact dictLookup_setDefault_none_self _ _ _ h

theorem ensureTop_key_terms_none (d : JsonDict) (h : dictLookup d "key_terms" = none) :
    dictLookup (ensureTopDefaults d) "key_terms" = some (.arr []) := by
  simp only [ensureTopDefaults]
  iterate 7 apply dictLookup_setDefault_some
  apply dictLookup_setDefault_none_self
  rw [dictLookup_setDefault_ne _ _ _ _ (by decide)]
  exact h

theorem ensureTop_obligations_none (d : JsonDict) (h : dictLookup d "obligations" = none) :
    dictLookup (ensureTopDefaults d) "obligations" = some (.obj []) := by
  simp only [ensureTopDefaults]
  iterate 6 apply dictLookup_setDefault_some
  apply dictLookup_setDefault_none_self
  rw [dictLookup_setDefault_ne _ _ _ _ (by decide),
      dictLookup_setDefault_ne _ _ _ _ (by decide)]
  exact h

theorem ensureTop_costs_none (d : JsonDict) (h : dictLookup d "costs_and_payments" = none) :
    dictLookup (ensureTopDefaults d) "costs_and_payments" = some (.arr []) := by
  simp only [ensureTopDefaults]
  iterate 5 apply dictLookup_setDefault_some
  apply dictLookup_setDefault_none_self
  rw [dictLookup_setDefault_ne _ _ _ _ (by decide),
      dictLookup_setDefault_ne _ _ _ _ (by decide),
      dictLookup_setDefault_ne _ _ _ _ (by decide)]
  exact h

theorem ensureTop_red_flags_none (d : JsonDict) (h : dictLookup d "red_flags" = none) :
    dictLookup (ensureTopDefaults d) "red_flags" = some (.arr []) := by
  simp only [ensureTopDefaults]
  iterate 3 apply dictLookup_setDefault_some
  apply dictLookup_setDefault_none_self
  rw [dictLookup_setDefault_ne _ _ _ _ (by decide),
      dictLookup_setDefault_ne _ _ _ _ (by decide),
      dictLookup_setDefault_ne _ _ _ _ (by decide),
      dictLookup_setDefault_ne _ _ _ _ (by decide),
      dictLookup_setDefault_ne _ _ _ _ (by decide)]
  exact h

theorem ensureTop_questions_none (d : JsonDict) (h : dictLookup d "questions_to_ask" = none) :
    dictLookup (ensureTopDefaults d) "questions_to_ask" = some (.arr []) := by
  simp only [ensureTopDefaults]
  iterate 2 apply dictLookup_setDefault_some
  apply dictLookup_setDefault_none_self
  rw [dictLookup_setDefault_ne _ _ _ _ (by decide),
      dictLookup_setDefault_ne _ _ _ _ (by decide),
      dictLookup_setDefault_ne _ _ _ _ (by decide),
      dictLookup_setDefault_ne _ _ _ _ (by decide),
      dictLookup_setDefault_ne _ _ _ _ (by decide),
      dictLookup_setDefault_ne _ _ _ _ (by decide)]
  exact h

theorem ensureTop_negotiation_none (d : JsonDict)
    (h : dictLookup d "negotiation_suggestions" = none) :
    dictLookup (ensureTopDefaults d) "negotiation_suggestions" = some (.arr []) := by
  simp only [ensureTopDefaults]
  apply dictLookup_setDefault_some
  apply dictLookup_setDefault_none_self
  rw [dictLookup_setDefault_ne _ _ _ _ (by decide),
      dictLookup_setDefault_ne _ _ _ _ (by decide),
      dictLookup_setDefault_ne _ _ _ _ (by decide),
      dictLookup_setDefault_ne _ _ _ _ (by decide),
      dictLookup_setDefault_ne _ _ _ _ (by decide),
      dictLookup_setDefault_ne _ _ _ _ (by decide),
      dictLookup_setDefault_ne _ _ _ _ (by decide)]
  exact h

theorem ensureTop_da_none (d : JsonDict) (h : dictLookup d "decision_assist" = none) :
    dictLookup (ensureTopDefaults d) "decision_assist" = some emptyDecisionDict := by
  simp only [ensureTopDefaults]
  apply dictLookup_setDefault_none_self
  rw [dictLookup_setDefault_ne _ _ _ _ (by decide),
      dictLookup_setDefault_ne _ _ _ _ (by decide),
      dictLookup_setDefault_ne _ _ _ _ (by decide),
      dictLookup_setDefault_ne _ _ _ _ (by decide),
      dictLookup_setDefault_ne _ _ _ _ (by decide),
      dictLookup_setDefault_ne _ _ _ _ (by decide),
      dictLookup_setDefault_ne _ _ _ _ (by decide),
      dictLookup_setDefault_ne _ _ _ _ (by decide)]
  exact h

theorem validateRisksLoop_eq (xs : List JsonVal) :
    validateRisksLoop xs = xs.filterMap fun r =>
      match r with
      | JsonVal.obj kvs => some (JsonVal.obj (riskBackfill kvs))
      | _ => none := by
  induction xs with
  | nil => rfl
  | cons r rest ih =>
    cases r <;> simp [validateRisksLoop, List.filterMap_cons, ih]

/-- The shared shape of a successful run of the coercion phase when the
post-backfill `risks` value is a JSON array. -/
theorem coerceAnalysisData_ok (d : JsonDict) (xs : List JsonVal)
    (h : dictLookup (ensureTopDefaults d) "risks" = some (.arr xs)) :
    ∃ v, dictLookup (dictSet (ensureTopDefaults d) "risks"
          (.arr (validateRisksLoop xs))) "decision_assist" = some v ∧
      coerceAnalysisData d = .ok (dictSet
        (dictSet (ensureTopDefaults d) "risks" (.arr (validateRisksLoop xs)))
        "decision_assist" (coerceDecisionAssist v)) := by
  obtain ⟨v0, hv0⟩ := ensureTop_da_isSome d
  have hv2 : dictLookup (dictSet (ensureTopDefaults d) "risks"
      (.arr (validateRisksLoop xs))) "decision_assist" = some v0 := by
    rw [dictLookup_set_ne _ _ _ _ (by decide)]
    exact hv0
  refine ⟨v0, hv2, ?_⟩
  unfold coerceAnalysisData
  dsimp only
  rw [h]
  dsimp only [Option.getD, pyIterElems]
  rw [hv2]

/-- All facts of one successful coercion run at once: the coerced `risks`,
preservation of given fields, the `decision_assist` rewrite, and the empty
default landing under every top-level key that the input lacked. -/
theorem coerceAnalysisData_full (d : JsonDict) (xs : List JsonVal)
    (hr : dictLookup (ensureTopDefaults d) "risks" = some (.arr xs)) :
    ∃ d2, coerceAnalysisData d = .ok d2 ∧
      dictLookup d2 "risks" = some (.arr (validateRisksLoop xs)) ∧
      (∀ k v, dictLookup d k = some v → k ≠ "risks" → k ≠ "decision_assist" →
        dictLookup d2 k = some v) ∧
      (∀ w, dictLookup d "decision_assist" = some w →
        dictLookup d2 "decision_assist" = some (coerceDecisionAssist w)) ∧
      (dictLookup d "summary" = none → dictLookup d2 "summary" = some (.arr [])) ∧
      (dictLookup d "key_terms" = none → dictLookup d2 "key_terms" = some (.arr [])) ∧
      (dictLookup d "obligations" = none → dictLookup d2 "obligations" = some (.obj [])) ∧
      (dictLookup d "costs_and_payments" = none →
        dictLookup d2 "costs_and_payments" = some (.arr [])) ∧
      (dictLookup d "red_flags" = none → dictLookup d2 "red_flags" = some (.arr [])) ∧
      (dictLookup d "questions_to_ask" = none →
        dictLookup d2 "questions_to_ask" = some (.arr [])) ∧
      (dictLookup d "negotiation_suggestions" = none →
        dictLookup d2 "negotiation_suggestions" = some (.arr [])) ∧
      (dictLookup d "decision_assist" = none →
        dictLookup d2 "decision_assist" = some emptyDecisionDict) := by
  obtain ⟨v, hv, heq⟩ := coerceAnalysisData_ok d xs hr
  refine ⟨_, heq, ?_, ?_, ?_, ?_, ?_, ?_, ?_, ?_, ?_, ?_, ?_⟩
  · rw [dictLookup_set_ne _ _ _ _ (by decide), dictLookup_set_self]
  · intro k v0 hk hk1 hk2
    rw [dictLookup_set_ne _ _ _ _ hk2, dictLookup_set_ne _ _ _ _ hk1]
    exact ensureTop_keeps_some d k v0 hk
  · intro w hw
    have hX : dictLookup (dictSet (ensureTopDefaults d) "risks"
        (.arr (validateRisksLoop xs))) "decision_assist" = some w := by
      rw [dictLookup_set_ne _ _ _ _ (by decide)]
      exact ensureTop_keeps_some d _ _ hw
    rw [hv] at hX
    obtain rfl : v = w := Option.some.inj hX
    exact dictLookup_set_self _ _ _
  · intro hk
    rw [dictLookup_set_ne _ _ _ _ (by decide), dictLookup_set_ne _ _ _ _ (by decide)]
    exact ensureTop_summary_none d hk
  · intro hk
    rw [dictLookup_set_ne _ _ _ _ (by decide), dictLookup_set_ne _ _ _ _ (by decide)]
    exact ensureTop_key_terms_none d hk
  · intro hk
    rw [dictLookup_set_ne _ _ _ _ (by decide), dictLookup_set_ne _ _ _ _ (by decide)]
    exact ensureTop_obligations_none d hk
  · intro hk
    rw [dictLookup_set_ne _ _ _ _ (by decide), dictLookup_set_ne _ _ _ _ (by decide)]
    exact ensureTop_costs_none d hk
  · intro hk
    rw [dictLookup_set_ne _ _ _ _ (by decide), dictLookup_set_ne _ _ _ _ (by decide)]
    exact ensureTop_red_flags_none d hk
  · intro hk
    rw [dictLookup_set_ne _ _ _ _ (by decide), dictLookup_set_ne _ _ _ _ (by decide)]
    exact ensureTop_questions_none d hk
  · intro hk
    rw [dictLookup_set_ne _ _ _ _ (by decide), dictLookup_set_ne _ _ _ _ (by decide)]
    exact ensureTop_negotiation_none d hk
  · intro hk
    have hX : dictLookup (dictSet (ensureTopDefaults d) "risks"
        (.arr (validateRisksLoop xs))) "decision_assist" = some emptyDecisionDict := by
      rw [dictLookup_set_ne _ _ _ _ (by decide)]
      exact ensureTop_da_none d hk
    rw [hv] at hX
    obtain rfl : v = emptyDecisionDict := Option.some.inj hX
    rw [dictLookup_set_self]
    rfl

/-! ## C5 -/

/-- C5: the coercion phase of `validate_and_coerce_analysis` behaves as
specified on every successfully parsed JSON object:
(1) a dict without a `risks` key is coerced to one whose `risks` is the
empty array, every other given top-level entry is kept verbatim, a given
`decision_assist` value is rewritten by `coerceDecisionAssist`, and EVERY
missing top-level field (`summary`, `key_terms`, `obligations`,
`costs_and_payments`, `red_flags`, `questions_to_ask`,
`negotiation_suggestions`, and a wholly missing `decision_assist`) appears
in the output with its empty default;
(2) the same for a dict whose `risks` is a JSON array, whose coerced
`risks` keeps exactly the dict elements (each passed through
`riskBackfill`), dropping every non-dict element;
(3) `riskBackfill` fills a missing `title` with `"Untitled Risk"`, a
missing `why_it_matters` with `""`, a missing `mitigations` with `[]`, and
keeps every present entry;
(4) `coerceDecisionAssist` on a dict fills missing `pros`/`cons` with `[]`
and a missing `overall_take` with `""`, keeping every present entry. -/
theorem validate_coerce_backfills :
    (∀ d : JsonDict, dictLookup d "risks" = none →
       ∃ d2, coerceAnalysisData d = .ok d2 ∧
         dictLookup d2 "risks" = some (.arr []) ∧
         (∀ k v, dictLookup d k = some v → k ≠ "risks" → k ≠ "decision_assist" →
           dictLookup d2 k = some v) ∧
         (∀ w, dictLookup d "decision_assist" = some w →
           dictLookup d2 "decision_assist" = some (coerceDecisionAssist w)) ∧
         (dictLookup d "summary" = none → dictLookup d2 "summary" = some (.arr [])) ∧
         (dictLookup d "key_terms" = none → dictLookup d2 "key_terms" = some (.arr [])) ∧
         (dictLookup d "obligations" = none → dictLookup d2 "obligations" = some (.obj [])) ∧
         (dictLookup d "costs_and_payments" = none →
           dictLookup d2 "costs_and_payments" = some (.arr [])) ∧
         (dictLookup d "red_flags" = none → dictLookup d2 "red_flags" = some (.arr [])) ∧
         (dictLookup d "questions_to_ask" = none →
           dictLookup d2 "questions_to_ask" = some (.arr [])) ∧
         (dictLookup d "negotiation_suggestions" = none →
           dictLookup d2 "negotiation_suggestions" = some (.arr [])) ∧
         (dictLookup d "decision_assist" = none →
           dictLookup d2 "decision_assist" = some emptyDecisionDict)) ∧
    (∀ d xs, dictLookup d "risks" = some (.arr xs) →
       ∃ d2, coerceAnalysisData d = .ok d2 ∧
         dictLookup d2 "risks" = some (.arr (xs.filterMap fun r =>
           match r with
           | JsonVal.obj kvs => some (JsonVal.obj (riskBackfill kvs))
           | _ => none)) ∧
         (∀ k v, dictLookup d k = some v → k ≠ "risks" → k ≠ "decision_assist" →
           dictLookup d2 k = some v) ∧
         (∀ w, dictLookup d "decision_assist" = some w →
           dictLookup d2 "decision_assist" = some (coerceDecisionAssist w)) ∧
         (dictLookup d "summary" = none → dictLookup d2 "summary" = some (.arr [])) ∧
         (dictLookup d "key_terms" = none → dictLookup d2 "key_terms" = some (.arr [])) ∧
         (dictLookup d "obligations" = none → dictLookup d2 "obligations" = some (.obj [])) ∧
         (dictLookup d "costs_and_payments" = none →
           dictLookup d2 "costs_and_payments" = some (.arr [])) ∧
         (dictLookup d "red_flags" = none → dictLookup d2 "red_flags" = some (.arr [])) ∧
         (dictLookup d "questions_to_ask" = none →
           dictLookup d2 "questions_to_ask" = some (.arr [])) ∧
         (dictLookup d "negotiation_suggestions" = none →
           dictLookup d2 "negotiation_suggestions" = some (.arr [])) ∧
         (dictLookup d "decision_assist" = none →
           dictLookup d2 "decision_assist" = some emptyDecisionDict)) ∧
    (∀ kvs : JsonDict,
       (dictLookup kvs "title" = none →
         dictLookup (riskBackfill kvs) "title" = some (.str "Untitled Risk")) ∧
       (dictLookup kvs "why_it_matters" = none →
         dictLookup (riskBackfill kvs) "why_it_matters" = some (.str "")) ∧
       (dictLookup kvs "mitigations" = none →
         dictLookup (riskBackfill kvs) "mitigations" = some (.arr [])) ∧
       (∀ k v, dictLookup kvs k = some v → dictLookup (riskBackfill kvs) k = some v)) ∧
    (∀ kvs : JsonDict, ∃ kvs2, coerceDecisionAssist (.obj kvs) = .obj kvs2 ∧
       (dictLookup kvs "pros" = none → dictLookup kvs2 "pros" = some (.arr [])) ∧
       (dictLookup kvs "cons" = none → dictLookup kvs2 "cons" = some (.arr [])) ∧
       (dictLookup kvs "overall_take" = none →
         dictLookup kvs2 "overall_take" = some (.str "")) ∧
       (∀ k v, dictLookup kvs k = some v → dictLookup kvs2 k = some v)) := by
  refine ⟨?_, ?_, ?_, ?_⟩
  · intro d h
    obtain ⟨d2, heq, hrisks, hkeep, hda, hs, hkt, hob, hcp, hrf, hq, hn, hdm⟩ :=
      coerceAnalysisData_full d [] (ensureTop_risks_none d h)
    exact ⟨d2, heq, hrisks, hkeep, hda, hs, hkt, hob, hcp, hrf, hq, hn, hdm⟩
  · intro d xs h
    obtain ⟨d2, heq, hrisks, hkeep, hda, hs, hkt, hob, hcp, hrf, hq, hn, hdm⟩ :=
      coerceAnalysisData_full d xs (ensureTop_keeps_some d "risks" (.arr xs) h)
    rw [validateRisksLoop_eq] at hrisks
    exact ⟨d2, heq, hrisks, hkeep, hda, hs, hkt, hob, hcp, hrf, hq, hn, hdm⟩
  · intro kvs
    refine ⟨?_, ?_, ?_, ?_⟩
    · intro h
      simp only [riskBackfill]
      rw [dictLookup_setDefault_ne _ _ _ _ (by decide),
          dictLookup_setDefault_ne _ _ _ _ (by decide)]
      exact dictLookup_setDefault_none_self _ _ _ h
    · intro h
      simp only [riskBackfill]
      rw [dictLookup_setDefault_ne _ _ _ _ (by decide)]
      apply dictLookup_setDefault_none_self
      rw [dictLookup_setDefault_ne _ _ _ _ (by decide)]
      exact h
    · intro h
      simp only [riskBackfill]
      apply dictLookup_setDefault_none_self
      rw [dictLookup_setDefault_ne _ _ _ _ (by decide),
          dictLookup_setDefault_ne _ _ _ _ (by decide)]
      exact h
    · intro k v hk
      simp only [riskBackfill]
      iterate 3 apply dictLookup_setDefault_some
      exact hk
  · intro kvs
    refine ⟨_, rfl, ?_, ?_, ?_, ?_⟩
    · intro h
      rw [dictLookup_setDefault_ne _ _ _ _ (by decide),
          dictLookup_setDefault_ne _ _ _ _ (by decide)]
      exact dictLookup_setDefault_none_self _ _ _ h
    · intro h
      rw [dictLookup_setDefault_ne _ _ _ _ (by decide)]
      apply dictLookup_setDefault_none_self
      rw [dictLookup_setDefault_ne _ _ _ _ (by decide)]
      exact h
    · intro h
      apply dictLookup_setDefault_none_self
      rw [dictLookup_setDefault_ne _ _ _ _ (by decide),
          dictLookup_setDefault_ne _ _ _ _ (by decide)]
      exact h
    · intro k v hk
      iterate 3 apply dictLookup_setDefault_some
      exact hk

/-- Concrete parsed model output for the C5 witness: `summary` given,
`risks` an array holding one dict (missing `why_it_matters` and
`mitigations`) and one non-dict element. -/
def coerceInputEx : JsonDict :=
  [("summary", .arr [.str "point one"]),
   ("risks", .arr [.obj [("title", .str "Risk A")], .num 3])]

/-- Witness for C5: on `coerceInputEx` the coercion succeeds, keeps the
dict element of `risks` (backfilled), drops the number, keeps the given
`summary`, and backfills the missing `key_terms` with the empty array. -/
theorem validate_coerce_backfills_witness :
    dictLookup coerceInputEx "risks" =
      some (.arr [.obj [("title", .str "Risk A")], .num 3]) ∧
    dictLookup coerceInputEx "key_terms" = none ∧
    ∃ d2, coerceAnalysisData coerceInputEx = .ok d2 ∧
      dictLookup d2 "risks" = some (.arr
        ([JsonVal.obj [("title", .str "Risk A")], JsonVal.num 3].filterMap fun r =>
          match r with
          | JsonVal.obj kvs => some (JsonVal.obj (riskBackfill kvs))
          | _ => none)) ∧
      dictLookup d2 "summary" = some (.arr [.str "point one"]) ∧
      dictLookup d2 "key_terms" = some (.arr []) := by
  refine ⟨rfl, rfl, ?_⟩
  obtain ⟨d2, h1, h2, h3, _hda, _hs, hkt, _⟩ := validate_coerce_backfills.2.1 coerceInputEx
    [.obj [("title", .str "Risk A")], .num 3] rfl
  exact ⟨d2, h1, h2, h3 "summary" _ rfl (by decide) (by decide), hkt rfl⟩
